import Mathlib

/-!
Shallow embedding of the workerlink link-shortening service
(Cloudflare Worker, Rust) and verification of its specification.

The embedding follows the source files:
- `src/storage/mod.rs` : the `StorageDriver` contract and the persisted
  `ShortlinkModel` (the record shape the lifecycle engine in `lib.rs` uses);
- `src/storage/cloudflare_storage_driver.rs` : the Cloudflare KV driver,
  modelled over an explicit backend outcome so that the `.unwrap()` calls
  in the source become an explicit panic branch (`none`);
- `src/models/link.rs` : `LinkModel` with `is_valid`;
- `src/models/shortlink.rs` : `ShortlinkModel.modify` (the model-layer
  update that retains counters);
- `src/authentication.rs` : the authorization gate;
- `src/lib.rs` : the lifecycle engine
  (`do_shortlink_redirect`, `get_shortlink_details`, `shortlink_exists`,
  `create_or_update_shortlink`, `delete_shortlink`).

Machine integers (`u64`) are modelled as `Nat`; where the source performs
arithmetic that can wrap (`views += 1`, `now + duration as u64`) the
embedding reduces modulo `2 ^ 64` explicitly. Time (`Date::now().as_millis()`)
is passed in as an explicit `now : Nat`.
-/

namespace Workerlink

/-- The size of the `u64` value space; `u64` arithmetic wraps modulo this. -/
def U64 : Nat := 2 ^ 64

/-- A parsed absolute URL (the `worker::Url` / `url::Url` type), abstracted
to the two observations the program makes of it: its textual form and its
domain (`Url::domain` returns an `Option`, e.g. `none` for IP hosts). -/
structure Url where
  text : String
  domain : Option String
deriving DecidableEq, Repr

/-- The persisted record, from `src/storage/mod.rs` (`ShortlinkModel`):
url, views, max_views, expiry_timestamp, created_at_timestamp,
last_visited_timestamp, disabled. -/
structure ShortlinkModel where
  url : Url
  views : Nat
  max_views : Option Nat
  expiry_timestamp : Option Nat
  created_at_timestamp : Nat
  last_visited_timestamp : Option Nat
  disabled : Bool
deriving DecidableEq, Repr

/-! ## Storage driver over a key-value backend

`src/storage/mod.rs` declares get / get_from_json / set / set_as_json /
exists / delete. The lifecycle engine only ever stores `ShortlinkModel`
values, so the store is modelled at that type: a key maps to a decoded
record or to nothing (the driver's lenient JSON decode collapses a corrupt
payload into absence, per `get_from_json` in
`src/storage/cloudflare_storage_driver.rs`). -/

/-- The state of the key-value backend, at the decoded-record level. -/
def Store : Type := String → Option ShortlinkModel

namespace Store

/-- `get_from_json` at the decoded level: the stored record, if any. -/
def get (s : Store) (key : String) : Option ShortlinkModel := s key

/-- `set_as_json` at the decoded level: unconditional upsert. -/
def set (s : Store) (key : String) (value : ShortlinkModel) : Store :=
  fun k => if k = key then some value else s k

/-- `delete`: removes the key. -/
def delete (s : Store) (key : String) : Store :=
  fun k => if k = key then none else s k

/-- `exists`, defined in the source as `get(key).is_some()`. -/
def existsKey (s : Store) (key : String) : Bool := (s key).isSome

end Store

/-! ## The raw Cloudflare KV driver (`src/storage/cloudflare_storage_driver.rs`)

The backend (`worker::kv::KvStore`) is networked and each call can fail;
a call's outcome is modelled as an `Except` value passed in explicitly.
The source calls `.unwrap()` on those outcomes in `get` and `set`; the
embedding returns `none` on that branch, modelling a panic of the caller
(there is no handler, so `none` means the request crashes). -/

/-- A backend failure (the KV store being unreachable or erroring). -/
inductive KvError where
  | backendUnavailable
deriving DecidableEq, Repr

namespace CloudflareKVDriver

/-- `get`: `self.kv_store.get(key).text().await.unwrap()`. A backend error
hits the `.unwrap()` and panics (`none`); success yields the raw value or
absence. -/
def get (backend : Except KvError (Option String)) : Option (Option String) :=
  match backend with
  | Except.ok v => some v
  | Except.error _ => none

/-- `set`: `self.kv_store.put(key, value).unwrap().execute().await.is_ok()`.
A failing `put` hits the `.unwrap()` and panics (`none`); otherwise the
result is whether `execute` succeeded. -/
def set (putResult : Except KvError Unit) (execResult : Except KvError Unit) :
    Option Bool :=
  match putResult with
  | Except.ok _ =>
    some (match execResult with
          | Except.ok _ => true
          | Except.error _ => false)
  | Except.error _ => none

/-- `get_from_json`: absent raw value stays absent, a present value is run
through the JSON decoder and a decode failure collapses to absence. The
panic of the underlying `get` propagates. -/
def get_from_json {T : Type} (backend : Except KvError (Option String))
    (decode : String → Option T) : Option (Option T) :=
  match get backend with
  | none => none
  | some none => some none
  | some (some raw) => some (decode raw)

/-- `set_as_json`: an encode failure returns `false` without touching the
backend; otherwise behaves as `set`. -/
def set_as_json (encoded : Option String) (putResult : Except KvError Unit)
    (execResult : Except KvError Unit) : Option Bool :=
  match encoded with
  | none => some false
  | some _ => set putResult execResult

/-- `delete`: `self.kv_store.delete(key).await.is_ok()` — total, no unwrap. -/
def delete (result : Except KvError Unit) : Bool :=
  match result with
  | Except.ok _ => true
  | Except.error _ => false

end CloudflareKVDriver

/-! ## The link model (`src/models/link.rs`) -/

/-- `LinkModel`, from `src/models/link.rs`. -/
structure LinkModel where
  url : Url
  disabled : Bool
  views : Nat
  max_views : Option Nat
  expiry_timestamp : Option Nat
  last_viewed_timestamp : Option Nat
  created_at_timestamp : Nat
  modified_at_timestamp : Nat
deriving DecidableEq, Repr

/-- Arguments for building a link (`LinkBuilderArgs`). -/
structure LinkBuilderArgs where
  url : Url
  disabled : Bool
  max_views : Option Nat
  expiry_timestamp : Option Nat
deriving DecidableEq, Repr

namespace LinkModel

/-- `LinkModel::new`: defaults `views = 0`, no last view, both timestamps
set to the current time. -/
def new (args : LinkBuilderArgs) (now : Nat) : LinkModel :=
  { url := args.url
    disabled := args.disabled
    views := 0
    max_views := args.max_views
    expiry_timestamp := args.expiry_timestamp
    last_viewed_timestamp := none
    created_at_timestamp := now
    modified_at_timestamp := now }

/-- `LinkModel::modify`: replaces url / disabled / max_views /
expiry_timestamp from the args, refreshes `modified_at_timestamp`, and
carries everything else (`..self`) over. -/
def modify (self : LinkModel) (args : LinkBuilderArgs) (now : Nat) : LinkModel :=
  { url := args.url
    disabled := args.disabled
    max_views := args.max_views
    expiry_timestamp := args.expiry_timestamp
    modified_at_timestamp := now
    views := self.views
    last_viewed_timestamp := self.last_viewed_timestamp
    created_at_timestamp := self.created_at_timestamp }

/-- `LinkModel::increment_visits`: sets the last-viewed time and bumps the
`u64` view counter. -/
def increment_visits (self : LinkModel) (now : Nat) : LinkModel :=
  { self with
    last_viewed_timestamp := some now
    views := (self.views + 1) % U64 }

/-- `LinkModel::is_valid`, exactly as in `src/models/link.rs` lines 75-89:
a strict time comparison against `expiry_timestamp` when set, then the view
bound when set. The `disabled` flag is not consulted here. -/
def is_valid (self : LinkModel) (now : Nat) : Bool :=
  if self.expiry_timestamp.any (fun expires_at_ms => decide (now > expires_at_ms)) then
    false
  else if self.max_views.any (fun max_views => decide (self.views ≥ max_views)) then
    false
  else
    true

end LinkModel

/-! ## Authentication (`src/authentication.rs`)

The gate reads the configured `AUTH_TOKEN` variable and the request's
`Authorization` header; both are passed in explicitly (the header is
`Option String`: absent when the request sent none). -/

/-- A request's authorization state (`AuthorizationState`). -/
inductive AuthorizationState where
  | Authorized
  | Unauthorized
  | NoAuthorizationSent
  | InternalNoTokenSet
deriving DecidableEq, Repr

/-- `is_request_authorized`, `src/authentication.rs` lines 22-44: an empty
configured token short-circuits to `InternalNoTokenSet` before the header
is even read; a missing header is `NoAuthorizationSent`; otherwise the
header is compared with the token. -/
def is_request_authorized (auth_token : String) (auth_header : Option String) :
    AuthorizationState :=
  if auth_token.isEmpty then
    AuthorizationState.InternalNoTokenSet
  else
    match auth_header with
    | none => AuthorizationState.NoAuthorizationSent
    | some header =>
      if header = auth_token then AuthorizationState.Authorized
      else AuthorizationState.Unauthorized

/-- `authorized_guard`: maps the authorization state to either a pass
(`none`) or the HTTP status of the rejection response
(403 / 401 / 500). -/
def authorized_guard (auth_token : String) (auth_header : Option String) :
    Option Nat :=
  match is_request_authorized auth_token auth_header with
  | AuthorizationState.Authorized => none
  | AuthorizationState.Unauthorized => some 403
  | AuthorizationState.NoAuthorizationSent => some 401
  | AuthorizationState.InternalNoTokenSet => some 500

/-! ## Create/update request body (`src/api/requests.rs`)

`url` is kept as raw text; its parse by `Url::parse` is passed to the
engine as an explicit outcome. `expire_in` is a duration in milliseconds
(`humantime` durations; `as_millis` fits the values of interest, the cast
`as u64` is the reduction modulo `2 ^ 64` below). -/

structure CreateShortlinkRequestBody where
  url : String
  overwrite : Bool
  expire_in : Option Nat
  max_views : Option Nat
  disabled : Bool
deriving DecidableEq, Repr

/-- The derived `Validate` impl: the `url` field must pass the validator
crate's URL check (an external library predicate, passed in as
`urlFieldValid`), and `max_views`, when present, must be at least 1
(`range(min = 1)`). -/
def CreateShortlinkRequestBody.validate (body : CreateShortlinkRequestBody)
    (urlFieldValid : Bool) : Bool :=
  urlFieldValid &&
    (match body.max_views with
     | some m => decide (m ≥ 1)
     | none => true)

/-! ## The lifecycle engine (`src/lib.rs`)

Each handler is a function of the decoded store plus the request data its
body reads, returning its observable response together with the store it
leaves behind. `Date::now().as_millis()` is the explicit `now`. The
persistence calls whose boolean result the source ignores
(`storage.delete` in the invalid branches, `storage.set_as_json` in the
redirect) are modelled as taking effect on the store. -/

/-- The inline expiry check of the handlers:
`value.expiry_timestamp` is `Some(e)` and `now > e`. -/
def ShortlinkModel.isExpired (value : ShortlinkModel) (now : Nat) : Bool :=
  value.expiry_timestamp.any (fun expires_at_ms => decide (now > expires_at_ms))

/-- The inline max-views check of the handlers:
`value.max_views` is `Some(m)` and `value.views >= m`. -/
def ShortlinkModel.isExhausted (value : ShortlinkModel) : Bool :=
  value.max_views.any (fun max_views => decide (value.views ≥ max_views))

/-- Observable outcome of `do_shortlink_redirect`: the 404 error response
or a 302 redirect to the stored URL. -/
inductive RedirectResult where
  | notFound
  | redirect (url : Url)
deriving DecidableEq, Repr

/-- `do_shortlink_redirect`, `src/lib.rs` lines 81-117: absent record 404;
disabled record 404 with no storage write; expired or view-exhausted record
deleted then 404; otherwise the view counter is bumped, the last-visited
time set, the record persisted and the redirect issued. -/
def do_shortlink_redirect (store : Store) (key : String) (now : Nat) :
    RedirectResult × Store :=
  match store.get key with
  | none => (RedirectResult.notFound, store)
  | some value =>
    if value.disabled then
      (RedirectResult.notFound, store)
    else if value.isExpired now then
      (RedirectResult.notFound, store.delete key)
    else if value.isExhausted then
      (RedirectResult.notFound, store.delete key)
    else
      let shortlink : ShortlinkModel :=
        { value with
          views := (value.views + 1) % U64
          last_visited_timestamp := some now }
      (RedirectResult.redirect shortlink.url, store.set key shortlink)

/-- Observable outcome of `get_shortlink_details`: 404 or the record as
JSON. -/
inductive DetailsResult where
  | notFound
  | details (model : ShortlinkModel)
deriving DecidableEq, Repr

/-- `get_shortlink_details`, `src/lib.rs` lines 120-156: the same
absent / disabled / expired / exhausted cascade as the redirect handler,
but the valid case returns the record unchanged and writes nothing. -/
def get_shortlink_details (store : Store) (key : String) (now : Nat) :
    DetailsResult × Store :=
  match store.get key with
  | none => (DetailsResult.notFound, store)
  | some value =>
    if value.disabled then
      (DetailsResult.notFound, store)
    else if value.isExpired now then
      (DetailsResult.notFound, store.delete key)
    else if value.isExhausted then
      (DetailsResult.notFound, store.delete key)
    else
      (DetailsResult.details value, store)

/-- `shortlink_exists`, `src/lib.rs` lines 69-78: a raw existence probe —
404 when the key has no (decodable) value, 302 when it has one. No
validity check and no write. -/
def shortlink_exists (store : Store) (key : String) : Nat :=
  if store.existsKey key then 302 else 404

/-- Observable outcome of `create_or_update_shortlink` after the auth
gate: the 400 / 409 / 500 rejections or the persisted model together with
the `already_exists` flag echoed as `overwritten`. -/
inductive CreateResult where
  | invalidPayload
  | unparsableUrl
  | sameDomain
  | conflict
  | storageFailure
  | created (model : ShortlinkModel) (overwritten : Bool)
deriving DecidableEq, Repr

/-- The model literal built at `src/lib.rs` lines 202-212: `views = 0`,
no last visit, `created_at = now`, expiry `now + expire_in` where
`expire_in.as_millis() as u64` truncates modulo `2 ^ 64` and the `u64`
addition wraps the same way. -/
def freshShortlinkModel (body : CreateShortlinkRequestBody) (url : Url)
    (now : Nat) : ShortlinkModel :=
  { url := url
    max_views := body.max_views
    views := 0
    last_visited_timestamp := none
    created_at_timestamp := now
    disabled := body.disabled
    expiry_timestamp :=
      body.expire_in.map (fun time => (now + time % U64) % U64) }

/-- `create_or_update_shortlink`, `src/lib.rs` lines 159-226 (after the
auth gate): validate the body, parse the URL (`urlParse` is the outcome of
`Url::parse(&body.url)`), reject a target on the worker's own domain
(`reqDomain` is `req.url()?.domain()`), take a raw existence check, reject
an existing key unless `overwrite`, then build `freshShortlinkModel` and
persist it, echoing the pre-existence flag as `overwritten`. -/
def create_or_update_shortlink (store : Store) (key : String)
    (body : CreateShortlinkRequestBody) (urlFieldValid : Bool)
    (urlParse : Option Url) (reqDomain : Option String) (now : Nat) :
    CreateResult × Store :=
  if !(body.validate urlFieldValid) then
    (CreateResult.invalidPayload, store)
  else
    match urlParse with
    | none => (CreateResult.unparsableUrl, store)
    | some url =>
      if reqDomain = url.domain then
        (CreateResult.sameDomain, store)
      else
        let already_exists := store.existsKey key
        if !body.overwrite && already_exists then
          (CreateResult.conflict, store)
        else
          let model := freshShortlinkModel body url now
          (CreateResult.created model already_exists, store.set key model)

/-- Observable outcome of `delete_shortlink` after the auth gate. -/
inductive DeleteResult where
  | notFound
  | failed
  | deleted
deriving DecidableEq, Repr

/-- `delete_shortlink`, `src/lib.rs` lines 229-247 (after the auth gate):
404 when the key holds nothing, then delete — whose backend success flag
(`deleteOk`) decides between the 500 and the 200 response. -/
def delete_shortlink (store : Store) (key : String) (deleteOk : Bool) :
    DeleteResult × Store :=
  match store.get key with
  | none => (DeleteResult.notFound, store)
  | some _ =>
    if !deleteOk then (DeleteResult.failed, store)
    else (DeleteResult.deleted, store.delete key)

/-! ## Concrete sample data for counterexamples and witnesses -/

/-- A sample parsed target URL. -/
def exampleUrl : Url := { text := "https://example.com/", domain := some "example.com" }

/-- A sample parsed target URL on a second domain. -/
def newUrl : Url := { text := "https://new.example.net/", domain := some "new.example.net" }

/-- The empty backend. -/
def emptyStore : Store := fun _ => none

/-- A stored record that is disabled but neither expired nor exhausted. -/
def disabledRecord : ShortlinkModel :=
  { url := exampleUrl
    views := 0
    max_views := none
    expiry_timestamp := none
    created_at_timestamp := 0
    last_visited_timestamp := none
    disabled := true }

/-- A backend holding `disabledRecord` under the key `k`. -/
def storeWithDisabled : Store :=
  fun k => if k = "k" then some disabledRecord else none

/-- A stored record that passes every validity check at time 42. -/
def validRecord : ShortlinkModel :=
  { url := exampleUrl
    views := 3
    max_views := some 10
    expiry_timestamp := some 1000
    created_at_timestamp := 5
    last_visited_timestamp := some 7
    disabled := false }

/-- A backend holding `validRecord` under the key `v`. -/
def storeWithValid : Store :=
  fun k => if k = "v" then some validRecord else none

/-- A pre-existing record with non-trivial counters, used to observe what
an overwrite does to them. -/
def priorRecord : ShortlinkModel :=
  { url := exampleUrl
    views := 5
    max_views := some 9
    expiry_timestamp := none
    created_at_timestamp := 100
    last_visited_timestamp := some 50
    disabled := false }

/-- A backend holding `priorRecord` under the key `p`. -/
def storeWithPrior : Store :=
  fun k => if k = "p" then some priorRecord else none

/-- A create/update request body with `overwrite` enabled. -/
def overwriteBody : CreateShortlinkRequestBody :=
  { url := "https://new.example.net"
    overwrite := true
    expire_in := none
    max_views := some 3
    disabled := true }

/-- A create request body with `overwrite` left at its default. -/
def conflictBody : CreateShortlinkRequestBody :=
  { url := "https://example.com"
    overwrite := false
    expire_in := none
    max_views := none
    disabled := false }

/-- The body of the spec's zero-duration-expiry scenario:
`expireIn = "0s"`. -/
def expireNowBody : CreateShortlinkRequestBody :=
  { url := "https://example.com"
    overwrite := false
    expire_in := some 0
    max_views := none
    disabled := false }

/-- A disabled link with neither an expiry nor a view bound. -/
def disabledLink : LinkModel :=
  { url := exampleUrl
    disabled := true
    views := 0
    max_views := none
    expiry_timestamp := none
    last_viewed_timestamp := none
    created_at_timestamp := 0
    modified_at_timestamp := 0 }

/-! ## Helper lemmas on the store -/

/-- Reading a key straight after setting it yields the written value. -/
theorem Store.get_set_self (s : Store) (k : String) (v : ShortlinkModel) :
    (s.set k v).get k = some v := by
  simp [Store.set, Store.get]

/-- Reading a key straight after deleting it yields nothing. -/
theorem Store.get_delete_self (s : Store) (k : String) :
    (s.delete k).get k = none := by
  simp [Store.delete, Store.get]

/-! ## Claim C2: what makes is_valid false -/

/-- C2 (counterexample): the claim says is_valid is false iff the record is
disabled, time-expired, or view-exhausted. On a record that is disabled but
neither expired nor exhausted, is_valid returns true, so the claimed
biconditional fails at that input. -/
theorem is_valid_disabled_counterexample :
    ¬ (LinkModel.is_valid disabledLink 0 = false ↔
        (disabledLink.disabled = true ∨
         (∃ e, disabledLink.expiry_timestamp = some e ∧ 0 > e) ∨
         (∃ m, disabledLink.max_views = some m ∧ disabledLink.views ≥ m))) := by
  intro h
  have hfalse : LinkModel.is_valid disabledLink 0 = false := h.mpr (Or.inl rfl)
  have htrue : LinkModel.is_valid disabledLink 0 = true := by decide
  rw [htrue] at hfalse
  exact Bool.noConfusion hfalse

/-- C2 (amended): is_valid is false iff the record is time-expired
(expiry set and now strictly past it) or view-exhausted (maxViews set and
views at or above it). The disabled flag is not consulted by is_valid;
the handlers in lib.rs check it separately. -/
theorem is_valid_false_iff (self : LinkModel) (now : Nat) :
    LinkModel.is_valid self now = false ↔
      ((∃ e, self.expiry_timestamp = some e ∧ now > e) ∨
       (∃ m, self.max_views = some m ∧ self.views ≥ m)) := by
  rcases hE : self.expiry_timestamp with _ | e <;>
    rcases hM : self.max_views with _ | m <;>
      simp [LinkModel.is_valid, hE, hM]
  omega

/-! ## Claim C4: the storage driver's failure model -/

/-- C4 (code bug evaluation): the claim (and the spec's failure model) says
every driver operation surfaces backend failure as absence or false and
never panics. In the source, get and set call unwrap on the backend result,
so a failing backend reaches the panic branch (modelled as none); only
delete is total. -/
theorem driver_unwrap_panics_on_backend_failure :
    CloudflareKVDriver.get (Except.error KvError.backendUnavailable) = none ∧
    CloudflareKVDriver.set (Except.error KvError.backendUnavailable)
      (Except.ok ()) = none ∧
    CloudflareKVDriver.delete (Except.error KvError.backendUnavailable) = false := by
  exact ⟨rfl, rfl, rfl⟩

/-! ## Claim C9: empty configured secret fails closed -/

/-- C9: with an empty configured AUTH_TOKEN, is_request_authorized returns
InternalNoTokenSet for every request — including one whose Authorization
header is the empty string — and the guard rejects it with a 500, so no
authenticated operation (details, create/update, delete) proceeds. -/
theorem empty_token_rejects_every_request (auth_header : Option String) :
    is_request_authorized "" auth_header = AuthorizationState.InternalNoTokenSet ∧
    authorized_guard "" auth_header = some 500 := by
  exact ⟨rfl, rfl⟩

/-! ## Claim C3: invalid records versus absent keys on the read paths -/

/-- C3 (counterexample): the claim includes the existence check among the
read operations for which an invalid record behaves like an absent key.
The existence probe is a raw get: on a stored-but-disabled record it
answers 302 (found), while on the absent key it answers 404. -/
theorem exists_check_sees_invalid_counterexample :
    disabledRecord.disabled = true ∧
    shortlink_exists storeWithDisabled "k" = 302 ∧
    shortlink_exists (Store.delete storeWithDisabled "k") "k" = 404 := by
  exact ⟨rfl, rfl, rfl⟩

/-- C3 (amended): a stored record that is disabled, time-expired, or
view-exhausted is observationally absent for Resolve and for Details —
each returns the same NotFound it returns once the key is deleted — but
not for the existence check, which reports raw presence (302). -/
theorem invalid_record_absent_for_redirect_and_details
    (store : Store) (key : String) (now : Nat) (value : ShortlinkModel)
    (hget : store.get key = some value)
    (hinv : value.disabled = true ∨ value.isExpired now = true ∨
            value.isExhausted = true) :
    (do_shortlink_redirect store key now).1 = RedirectResult.notFound ∧
    (do_shortlink_redirect (store.delete key) key now).1 =
      RedirectResult.notFound ∧
    (get_shortlink_details store key now).1 = DetailsResult.notFound ∧
    (get_shortlink_details (store.delete key) key now).1 =
      DetailsResult.notFound ∧
    shortlink_exists store key = 302 := by
  have hdel : (Store.delete store key).get key = none := Store.get_delete_self store key
  refine ⟨?_, ?_, ?_, ?_, ?_⟩
  · cases hd : value.disabled <;> cases he : value.isExpired now <;>
      cases hx : value.isExhausted <;>
        simp_all [do_shortlink_redirect, hget]
  · simp [do_shortlink_redirect, hdel]
  · cases hd : value.disabled <;> cases he : value.isExpired now <;>
      cases hx : value.isExhausted <;>
        simp_all [get_shortlink_details, hget]
  · simp [get_shortlink_details, hdel]
  · simp [shortlink_exists, Store.existsKey, show store key = some value from hget]

/-- C3 (witness): the amended theorem applied to the disabled record. -/
theorem invalid_record_absent_for_redirect_and_details_witness :
    (do_shortlink_redirect storeWithDisabled "k" 0).1 = RedirectResult.notFound ∧
    (do_shortlink_redirect (Store.delete storeWithDisabled "k") "k" 0).1 =
      RedirectResult.notFound ∧
    (get_shortlink_details storeWithDisabled "k" 0).1 = DetailsResult.notFound ∧
    (get_shortlink_details (Store.delete storeWithDisabled "k") "k" 0).1 =
      DetailsResult.notFound ∧
    shortlink_exists storeWithDisabled "k" = 302 :=
  invalid_record_absent_for_redirect_and_details storeWithDisabled "k" 0
    disabledRecord rfl (Or.inl rfl)

/-! ## Claim C5: what Resolve does to an invalid record -/

/-- C5 (counterexample): the claim says Resolve deletes the key for every
record failing validity, the disabled case included. On a disabled record
Resolve answers NotFound but the key is still present, holding the very
same record. -/
theorem resolve_disabled_keeps_key_counterexample :
    disabledRecord.disabled = true ∧
    (do_shortlink_redirect storeWithDisabled "k" 0).1 = RedirectResult.notFound ∧
    (do_shortlink_redirect storeWithDisabled "k" 0).2.get "k" =
      some disabledRecord := by
  exact ⟨rfl, rfl, rfl⟩

/-- C5 (amended): Resolve on a record failing validity returns NotFound and
never increments anything; the key is deleted when the failure is expiry or
view-exhaustion, but a disabled record is left in storage untouched. -/
theorem resolve_invalid_never_increments
    (store : Store) (key : String) (now : Nat) (value : ShortlinkModel)
    (hget : store.get key = some value)
    (hinv : value.disabled = true ∨ value.isExpired now = true ∨
            value.isExhausted = true) :
    (do_shortlink_redirect store key now).1 = RedirectResult.notFound ∧
    (value.disabled = true → (do_shortlink_redirect store key now).2 = store) ∧
    (value.disabled = false →
      (do_shortlink_redirect store key now).2 = store.delete key ∧
      (do_shortlink_redirect store key now).2.get key = none) := by
  refine ⟨?_, ?_, ?_⟩
  · cases hd : value.disabled <;> cases he : value.isExpired now <;>
      cases hx : value.isExhausted <;>
        simp_all [do_shortlink_redirect, hget]
  · intro hd
    simp [do_shortlink_redirect, hget, hd]
  · intro hd
    rcases hinv with h | h | h
    · rw [hd] at h
      exact Bool.noConfusion h
    · constructor <;> simp [do_shortlink_redirect, hget, hd, h, Store.get_delete_self]
    · cases he : value.isExpired now <;>
        constructor <;>
          simp [do_shortlink_redirect, hget, hd, h, he, Store.get_delete_self]

/-- C5 (witness): the amended theorem applied to the disabled record. -/
theorem resolve_invalid_never_increments_witness :
    (do_shortlink_redirect storeWithDisabled "k" 0).1 = RedirectResult.notFound ∧
    (disabledRecord.disabled = true →
      (do_shortlink_redirect storeWithDisabled "k" 0).2 = storeWithDisabled) ∧
    (disabledRecord.disabled = false →
      (do_shortlink_redirect storeWithDisabled "k" 0).2 =
        Store.delete storeWithDisabled "k" ∧
      (do_shortlink_redirect storeWithDisabled "k" 0).2.get "k" = none) :=
  resolve_invalid_never_increments storeWithDisabled "k" 0 disabledRecord rfl
    (Or.inl rfl)

/-! ## Claim C6: Resolve on a valid record -/

/-- C6: when the stored record passes every check (not disabled, not
time-expired, not view-exhausted) and the u64 view counter does not wrap,
Resolve redirects to the record's URL and persists the record with views
incremented by exactly one and the last-visited time set to now, every
other field unchanged. -/
theorem resolve_valid_increments_and_redirects
    (store : Store) (key : String) (now : Nat) (value : ShortlinkModel)
    (hget : store.get key = some value)
    (hd : value.disabled = false)
    (he : value.isExpired now = false)
    (hx : value.isExhausted = false)
    (hnw : value.views + 1 < U64) :
    (do_shortlink_redirect store key now).1 = RedirectResult.redirect value.url ∧
    (do_shortlink_redirect store key now).2.get key =
      some { value with
             views := value.views + 1
             last_visited_timestamp := some now } := by
  have hmod : (value.views + 1) % U64 = value.views + 1 := Nat.mod_eq_of_lt hnw
  constructor
  · simp [do_shortlink_redirect, hget, hd, he, hx]
  · simp [do_shortlink_redirect, hget, hd, he, hx, Store.get_set_self, hmod]

/-- C6 (witness): Resolve at time 42 on the valid sample record. -/
theorem resolve_valid_increments_and_redirects_witness :
    (do_shortlink_redirect storeWithValid "v" 42).1 =
      RedirectResult.redirect validRecord.url ∧
    (do_shortlink_redirect storeWithValid "v" 42).2.get "v" =
      some { validRecord with
             views := validRecord.views + 1
             last_visited_timestamp := some 42 } :=
  resolve_valid_increments_and_redirects storeWithValid "v" 42 validRecord
    rfl rfl rfl rfl (by decide)

/-! ## Claim C10: Details on a valid record is read-only -/

/-- C10: when the stored record passes every check, Details returns the
full record exactly as stored and leaves the whole store untouched — in
particular views and the last-visited time are not modified and no write
occurs. -/
theorem details_valid_returns_record_without_write
    (store : Store) (key : String) (now : Nat) (value : ShortlinkModel)
    (hget : store.get key = some value)
    (hd : value.disabled = false)
    (he : value.isExpired now = false)
    (hx : value.isExhausted = false) :
    get_shortlink_details store key now = (DetailsResult.details value, store) := by
  simp [get_shortlink_details, hget, hd, he, hx]

/-- C10 (witness): Details at time 42 on the valid sample record. -/
theorem details_valid_returns_record_without_write_witness :
    get_shortlink_details storeWithValid "v" 42 =
      (DetailsResult.details validRecord, storeWithValid) :=
  details_valid_returns_record_without_write storeWithValid "v" 42 validRecord
    rfl rfl rfl rfl

/-! ## Claim C7: overwrite disallowed on an existing key -/

/-- C7: whenever the key holds a record — valid or not — and the body does
not enable overwrite, create_or_update_shortlink (past the URL checks)
returns Conflict and leaves the store exactly as it was. -/
theorem create_no_overwrite_conflicts
    (store : Store) (key : String) (body : CreateShortlinkRequestBody)
    (urlFieldValid : Bool) (url : Url) (reqDomain : Option String) (now : Nat)
    (hval : body.validate urlFieldValid = true)
    (hov : body.overwrite = false)
    (hex : store.existsKey key = true)
    (hdom : reqDomain ≠ url.domain) :
    create_or_update_shortlink store key body urlFieldValid (some url)
      reqDomain now = (CreateResult.conflict, store) := by
  simp [create_or_update_shortlink, hval, hov, hex, hdom]

/-- C7 (witness): the conflict theorem applied to a store whose existing
record is even invalid (disabled), showing the raw existence check. -/
theorem create_no_overwrite_conflicts_witness :
    create_or_update_shortlink storeWithDisabled "k" conflictBody true
      (some exampleUrl) (some "short.example") 0 =
      (CreateResult.conflict, storeWithDisabled) :=
  create_no_overwrite_conflicts storeWithDisabled "k" conflictBody true
    exampleUrl (some "short.example") 0 rfl rfl rfl (by decide)

/-! ## Claim C1: what an allowed overwrite persists -/

/-- C1 (counterexample): the claim says an allowed overwrite carries the
prior record's views, createdAt and lastViewedAt over into the persisted
record. Overwriting the sample prior record (views 5, createdAt 100,
lastViewedAt 50) at time 200 persists the fresh model instead: its views,
createdAt and lastViewedAt all differ from the prior record's. -/
theorem create_overwrite_discards_counters_counterexample :
    (create_or_update_shortlink storeWithPrior "p" overwriteBody true
        (some newUrl) (some "short.example") 200).1 =
      CreateResult.created (freshShortlinkModel overwriteBody newUrl 200) true ∧
    (create_or_update_shortlink storeWithPrior "p" overwriteBody true
        (some newUrl) (some "short.example") 200).2.get "p" =
      some (freshShortlinkModel overwriteBody newUrl 200) ∧
    (freshShortlinkModel overwriteBody newUrl 200).views ≠ priorRecord.views ∧
    (freshShortlinkModel overwriteBody newUrl 200).created_at_timestamp ≠
      priorRecord.created_at_timestamp ∧
    (freshShortlinkModel overwriteBody newUrl 200).last_visited_timestamp ≠
      priorRecord.last_visited_timestamp := by
  refine ⟨rfl, rfl, by decide, by decide, by decide⟩

/-- C1 (amended): CreateOrUpdate with overwrite allowed on an existing key
persists a record built fresh from the arguments — target, disabled,
maxViews and expiresAt come from the new arguments, views is reset to 0,
lastViewedAt to none and createdAt to now — discarding the prior record's
counters (the persisted model carries no modifiedAt field;
ShortlinkModel::modify, which would preserve them, is never called by the
engine). -/
theorem create_overwrite_persists_fresh_record
    (store : Store) (key : String) (body : CreateShortlinkRequestBody)
    (urlFieldValid : Bool) (url : Url) (reqDomain : Option String) (now : Nat)
    (hval : body.validate urlFieldValid = true)
    (hov : body.overwrite = true)
    (hex : store.existsKey key = true)
    (hdom : reqDomain ≠ url.domain) :
    create_or_update_shortlink store key body urlFieldValid (some url)
        reqDomain now =
      (CreateResult.created (freshShortlinkModel body url now) true,
       store.set key (freshShortlinkModel body url now)) ∧
    (freshShortlinkModel body url now).views = 0 ∧
    (freshShortlinkModel body url now).last_visited_timestamp = none ∧
    (freshShortlinkModel body url now).created_at_timestamp = now ∧
    (freshShortlinkModel body url now).url = url ∧
    (freshShortlinkModel body url now).disabled = body.disabled ∧
    (freshShortlinkModel body url now).max_views = body.max_views := by
  refine ⟨?_, rfl, rfl, rfl, rfl, rfl, rfl⟩
  simp [create_or_update_shortlink, hval, hov, hex, hdom]

/-- C1 (witness): overwriting the sample prior record at time 200. -/
theorem create_overwrite_persists_fresh_record_witness :
    create_or_update_shortlink storeWithPrior "p" overwriteBody true
        (some newUrl) (some "short.example") 200 =
      (CreateResult.created (freshShortlinkModel overwriteBody newUrl 200) true,
       Store.set storeWithPrior "p" (freshShortlinkModel overwriteBody newUrl 200)) ∧
    (freshShortlinkModel overwriteBody newUrl 200).views = 0 ∧
    (freshShortlinkModel overwriteBody newUrl 200).last_visited_timestamp = none ∧
    (freshShortlinkModel overwriteBody newUrl 200).created_at_timestamp = 200 ∧
    (freshShortlinkModel overwriteBody newUrl 200).url = newUrl ∧
    (freshShortlinkModel overwriteBody newUrl 200).disabled =
      overwriteBody.disabled ∧
    (freshShortlinkModel overwriteBody newUrl 200).max_views =
      overwriteBody.max_views :=
  create_overwrite_persists_fresh_record storeWithPrior "p" overwriteBody true
    newUrl (some "short.example") 200 rfl rfl rfl (by decide)

/-! ## Claim C8: the zero-duration-expiry scenario -/

/-- C8 (counterexample): the claim says a record created with expireIn zero
(expiresAt equal to the creation time) resolves to NotFound at every now
with now at or past expiresAt. Creating such a record at time 100 and
resolving at now equal to 100 (so now is at expiresAt) instead yields the
redirect, and the key stays in storage: the expiry comparison in the code
is strict. -/
theorem resolve_at_exact_expiry_counterexample :
    (create_or_update_shortlink emptyStore "x" expireNowBody true
        (some exampleUrl) (some "short.example") 100).2.get "x" =
      some (freshShortlinkModel expireNowBody exampleUrl 100) ∧
    (freshShortlinkModel expireNowBody exampleUrl 100).expiry_timestamp =
      some 100 ∧
    (do_shortlink_redirect
        (create_or_update_shortlink emptyStore "x" expireNowBody true
          (some exampleUrl) (some "short.example") 100).2 "x" 100).1 =
      RedirectResult.redirect exampleUrl ∧
    (do_shortlink_redirect
        (create_or_update_shortlink emptyStore "x" expireNowBody true
          (some exampleUrl) (some "short.example") 100).2 "x" 100).2.get "x" ≠
      none := by
  refine ⟨rfl, by decide, by decide, by decide⟩

/-- C8 (amended): a record created with expireIn zero carries expiresAt
equal to the creation time, and a Resolve performed at any now strictly
greater than expiresAt returns NotFound and deletes the key; at now equal
to expiresAt the record is still valid. -/
theorem resolve_after_zero_expiry_deletes
    (store : Store) (key : String) (body : CreateShortlinkRequestBody)
    (urlFieldValid : Bool) (url : Url) (reqDomain : Option String)
    (t now : Nat)
    (hval : body.validate urlFieldValid = true)
    (hdom : reqDomain ≠ url.domain)
    (hnoc : (!body.overwrite && store.existsKey key) = false)
    (hzero : body.expire_in = some 0)
    (hdis : body.disabled = false)
    (ht : t < U64)
    (hnow : now > t) :
    (freshShortlinkModel body url t).expiry_timestamp = some t ∧
    (do_shortlink_redirect
        (create_or_update_shortlink store key body urlFieldValid (some url)
          reqDomain t).2 key now).1 = RedirectResult.notFound ∧
    (do_shortlink_redirect
        (create_or_update_shortlink store key body urlFieldValid (some url)
          reqDomain t).2 key now).2.get key = none := by
  have hexp : (freshShortlinkModel body url t).expiry_timestamp = some t := by
    simp [freshShortlinkModel, hzero, Nat.mod_eq_of_lt ht]
  have hcreate : (create_or_update_shortlink store key body urlFieldValid
      (some url) reqDomain t).2 = store.set key (freshShortlinkModel body url t) := by
    simp [create_or_update_shortlink, hval, hdom, hnoc]
  have hget : (store.set key (freshShortlinkModel body url t)).get key =
      some (freshShortlinkModel body url t) :=
    Store.get_set_self store key (freshShortlinkModel body url t)
  have hgd : (freshShortlinkModel body url t).disabled = false := by
    simp [freshShortlinkModel, hdis]
  have hexpd : (freshShortlinkModel body url t).isExpired now = true := by
    simp [ShortlinkModel.isExpired, hexp]
    exact hnow
  refine ⟨hexp, ?_, ?_⟩
  · rw [hcreate]
    simp [do_shortlink_redirect, hget, hgd, hexpd]
  · rw [hcreate]
    simp [do_shortlink_redirect, hget, hgd, hexpd, Store.get_delete_self]

/-- C8 (witness): create at time 100 with expireIn zero, resolve at 101. -/
theorem resolve_after_zero_expiry_deletes_witness :
    (freshShortlinkModel expireNowBody exampleUrl 100).expiry_timestamp =
      some 100 ∧
    (do_shortlink_redirect
        (create_or_update_shortlink emptyStore "x" expireNowBody true
          (some exampleUrl) (some "short.example") 100).2 "x" 101).1 =
      RedirectResult.notFound ∧
    (do_shortlink_redirect
        (create_or_update_shortlink emptyStore "x" expireNowBody true
          (some exampleUrl) (some "short.example") 100).2 "x" 101).2.get "x" =
      none :=
  resolve_after_zero_expiry_deletes emptyStore "x" expireNowBody true
    exampleUrl (some "short.example") 100 101 rfl (by decide) rfl rfl rfl
    (by decide) (by decide)

end Workerlink
